import Mathlib

/-!
# Verification of the Open3D tensor-core and nearest-neighbor specification

Shallow embedding of the relevant parts of the Open3D tensor compute core
(CPU copy / unary / binary elementwise kernels, the CUDA device-query
surface, and the fixed-radius nearest-neighbor index) together with proofs
of the specification claims.

Modelling conventions:
* machine integers are `Int` with explicit two-complement wrap-around where
  the C++ code can overflow;
* IEEE float values are carried as exact rationals (`ℚ`); operations whose
  result is not exactly determined by the rational value (rounding float
  math, NaN/Inf classification) are outside the model and yield the
  explicit `boundary` result rather than a made-up value;
* fallible code returns `Except`/`Option`-style results; `LogError` (which
  throws) is an `error`/`err` result carrying its message.
-/

set_option maxRecDepth 8192

/- Re-enable kernel unfolding of the exact rational operations so that the
model can be evaluated at concrete inputs. -/
attribute [local semireducible] Rat.add Rat.mul Rat.sub

namespace Open3D

/-! ## Dtype model (Dtype.h is not under src/; the enumeration follows the
spec: fixed-width signed/unsigned integers, IEEE float32/64, boolean, and
opaque object blobs of a fixed byte size). -/

inductive Dtype where
  | float32
  | float64
  | int8
  | int16
  | int32
  | int64
  | uint8
  | uint16
  | uint32
  | uint64
  | boolT
  | object (byteSizeArg : Nat)
  deriving DecidableEq, Repr

def Dtype.byteSize : Dtype → Nat
  | .float32 => 4
  | .float64 => 8
  | .int8 => 1
  | .int16 => 2
  | .int32 => 4
  | .int64 => 8
  | .uint8 => 1
  | .uint16 => 2
  | .uint32 => 4
  | .uint64 => 8
  | .boolT => 1
  | .object n => n

/-- Width in bits and signedness of the integer dtypes. -/
def Dtype.intBits : Dtype → Option (Nat × Bool)
  | .int8 => some (8, true)
  | .int16 => some (16, true)
  | .int32 => some (32, true)
  | .int64 => some (64, true)
  | .uint8 => some (8, false)
  | .uint16 => some (16, false)
  | .uint32 => some (32, false)
  | .uint64 => some (64, false)
  | _ => none

def Dtype.isObject : Dtype → Bool
  | .object _ => true
  | _ => false

def Dtype.isFloat : Dtype → Bool
  | .float32 => true
  | .float64 => true
  | _ => false

/-- Dtypes handled by `DISPATCH_DTYPE_TO_TEMPLATE` (floats and integers;
the macro raises "Unsupported data type" on anything else). -/
def Dtype.dispatchable (d : Dtype) : Bool := d.isFloat || d.intBits.isSome

/-- Dtypes handled by `DISPATCH_DTYPE_TO_TEMPLATE_WITH_BOOL`. -/
def Dtype.dispatchableWithBool (d : Dtype) : Bool :=
  d.dispatchable || d == .boolT

/-! ## Scalar values -/

/-- A scalar element value.  Integer dtypes carry an `Int`, bool carries a
`Bool`, float dtypes carry the exact rational value of the stored (finite)
float, and object dtypes carry an opaque byte blob. -/
inductive Scalar where
  | intv (v : Int)
  | boolv (b : Bool)
  | floatv (q : ℚ)
  | objv (bytes : List Nat)
  deriving DecidableEq, Repr

instance : Inhabited Scalar := ⟨.intv 0⟩

/-- Two-complement wrap of a signed `w`-bit integer. -/
def wrapSigned (w : Nat) (v : Int) : Int :=
  (v + 2 ^ (w - 1)) % 2 ^ w - 2 ^ (w - 1)

/-- Wrap of an unsigned `w`-bit integer. -/
def wrapUnsigned (w : Nat) (v : Int) : Int := v % 2 ^ w

def wrapTo (w : Nat) (signed : Bool) (v : Int) : Int :=
  if signed then wrapSigned w v else wrapUnsigned w v

/-- `s.hasDtype d`: the scalar is a well-formed value of dtype `d`
(integer in range, matching constructor, blob of the right size). -/
def Scalar.hasDtype : Scalar → Dtype → Bool
  | .intv v, d =>
    match d.intBits with
    | some (w, sg) => wrapTo w sg v == v
    | none => false
  | .boolv _, d => d == .boolT
  | .floatv _, d => d.isFloat
  | .objv bs, .object n => bs.length == n
  | .objv _, _ => false

/-- Semantics of `static_cast<dst_t>(src_value)` as performed by
`CPUCopyElementKernel<src_t, dst_t>` (part_001 lines 53-57), at the
granularity the model determines exactly.  `none` marks conversions whose
result depends on floating-point rounding (int↔float and float↔float
cross casts), which are outside the exact-rational model. -/
def castScalar (sd dd : Dtype) (s : Scalar) : Option Scalar :=
  if sd = dd then some s
  else
    match s with
    | .intv v =>
      match dd.intBits with
      | some (w, sg) => some (.intv (wrapTo w sg v))
      | none => if dd = .boolT then some (.boolv (decide (v ≠ 0))) else none
    | .boolv b =>
      match dd.intBits with
      | some (w, sg) => some (.intv (wrapTo w sg (if b then 1 else 0)))
      | none => if dd.isFloat then some (.floatv (if b then 1 else 0)) else none
    | .floatv q => if dd = .boolT then some (.boolv (decide (q ≠ 0))) else none
    | .objv _ => none

/-- The dtype pairs whose cast semantics the model determines exactly:
identical dtypes, any pair of integer/bool dtypes, bool→float
(0.0/1.0 are exact) and float→bool (zero test is exact). -/
def castDefined (sd dd : Dtype) : Bool :=
  sd == dd ||
    ((sd.intBits.isSome || sd == .boolT) && (dd.intBits.isSome || dd == .boolT)) ||
    (sd == .boolT && dd.isFloat) ||
    (sd.isFloat && dd == .boolT)

theorem castScalar_same (d : Dtype) (s : Scalar) : castScalar d d s = some s := by
  simp [castScalar]

theorem castScalar_isSome (sd dd : Dtype) (s : Scalar)
    (hwf : s.hasDtype sd = true) (hcd : castDefined sd dd = true) :
    (castScalar sd dd s).isSome = true := by
  by_cases hsame : sd = dd
  · subst hsame; simp [castScalar_same]
  · cases s <;> cases sd <;> cases dd <;>
      simp_all [castScalar, castDefined, Scalar.hasDtype, Dtype.intBits, Dtype.isFloat]

/-! ## Tensors (element-level model)

A tensor is shape + dtype + contiguity + its elements in row-major logical
order.  Strides are abstracted into the `contiguous` flag: every claim in
scope reads and writes elements positionally, which is exactly what the
Indexer provides. -/

structure CTensor where
  shape : List Nat
  dtype : Dtype
  contiguous : Bool
  data : List Scalar
  deriving DecidableEq, Repr

def CTensor.numel (t : CTensor) : Nat := t.shape.prod

/-- Read element `i` of a flat buffer (out-of-range reads return the
default scalar; well-formedness hypotheses keep reads in range). -/
def readFlat (data : List Scalar) (i : Nat) : Scalar := data.getD i default

/-! ### Broadcast / iteration machinery (Indexer model)

The Indexer (Indexer.h/cpp is not under src/) is modelled from the spec:
output shape by right-aligned NumPy broadcasting, size-1 input dimensions
are stretched by clamping the coordinate to 0. -/

/-- Right-aligned broadcast compatibility of equal-length shape suffixes. -/
def bcastCompatAligned : List Nat → List Nat → Bool
  | [], [] => true
  | s :: ss, d :: ds => (s == d || s == 1) && bcastCompatAligned ss ds
  | _, _ => false

/-- `srcShape` broadcasts to `dstShape` (right-aligned; a 1-dim stretches). -/
def bcastCompat (srcShape dstShape : List Nat) : Bool :=
  srcShape.length ≤ dstShape.length &&
    bcastCompatAligned srcShape (dstShape.drop (dstShape.length - srcShape.length))

def bcastIndexAligned : List Nat → List Nat → List Nat
  | s :: ss, i :: is => (if s = 1 then 0 else i) :: bcastIndexAligned ss is
  | _, _ => []

/-- Map a multi-index into the (broadcast) dst shape to the corresponding
multi-index into the src shape. -/
def bcastIndex (srcShape dstIdx : List Nat) : List Nat :=
  bcastIndexAligned srcShape (dstIdx.drop (dstIdx.length - srcShape.length))

/-- All multi-indices of a shape in row-major order. -/
def allIndices : List Nat → List (List Nat)
  | [] => [[]]
  | n :: rest => (List.range n).flatMap (fun i => (allIndices rest).map (fun ix => i :: ix))

/-- Row-major flattening of a multi-index. -/
def flattenIndex : List Nat → List Nat → Nat
  | [], _ => 0
  | _ :: restShape, [] => 0 * restShape.prod
  | _ :: restShape, i :: restIdx => i * restShape.prod + flattenIndex restShape restIdx

theorem allIndices_length (shape : List Nat) :
    (allIndices shape).length = shape.prod := by
  induction shape with
  | nil => simp [allIndices]
  | cons n rest ih =>
    simp only [allIndices, List.length_flatMap, List.map_map, List.prod_cons]
    have : ∀ i : Nat, ((allIndices rest).map (fun ix => i :: ix)).length = rest.prod := by
      intro i; simp [ih]
    calc ((List.range n).map fun i => ((allIndices rest).map (fun ix => i :: ix)).length).sum
        = ((List.range n).map fun _ => rest.prod).sum := by
          congr 1; exact List.map_congr_left (fun i _ => this i)
      _ = n * rest.prod := by
          rw [List.map_const', List.sum_replicate, List.length_range, smul_eq_mul]

theorem range_mul_flatMap (n m : Nat) :
    (List.range n).flatMap (fun i => (List.range m).map (fun j => i * m + j)) =
      List.range (n * m) := by
  induction n with
  | zero => simp
  | succ k ih =>
    rw [List.range_succ, List.flatMap_append, ih, Nat.succ_mul, List.range_add]
    simp [List.flatMap]

theorem allIndices_map_flatten (shape : List Nat) :
    (allIndices shape).map (flattenIndex shape) = List.range shape.prod := by
  induction shape with
  | nil => decide
  | cons n rest ih =>
    simp only [allIndices, List.map_flatMap, List.map_map, List.prod_cons]
    rw [← range_mul_flatMap n rest.prod]
    congr 1
    funext i
    rw [← ih, List.map_map]
    rfl

theorem flattenIndex_lt (shape : List Nat) (ix : List Nat)
    (h : ix ∈ allIndices shape) : flattenIndex shape ix < shape.prod := by
  have : flattenIndex shape ix ∈ (allIndices shape).map (flattenIndex shape) :=
    List.mem_map_of_mem _ h
  rw [allIndices_map_flatten] at this
  exact List.mem_range.mp this

theorem bcastIndexAligned_self (shape ix : List Nat) (h : ix ∈ allIndices shape) :
    bcastIndexAligned shape ix = ix := by
  induction shape generalizing ix with
  | nil =>
    simp only [allIndices, List.mem_singleton] at h
    subst h; rfl
  | cons n rest ih =>
    simp only [allIndices, List.mem_flatMap, List.mem_map] at h
    obtain ⟨i, hi, ix', hix', rfl⟩ := h
    simp only [bcastIndexAligned, ih ix' hix']
    by_cases hn : n = 1
    · subst hn
      simp only [List.mem_range, Nat.lt_one_iff] at hi
      subst hi; simp
    · simp [hn]

theorem bcastCompat_self (shape : List Nat) : bcastCompat shape shape = true := by
  have : ∀ s : List Nat, bcastCompatAligned s s = true := by
    intro s
    induction s with
    | nil => rfl
    | cons a t ih => simp [bcastCompatAligned, ih]
  simp [bcastCompat, this]

theorem allIndices_mem_length (shape ix : List Nat) (h : ix ∈ allIndices shape) :
    ix.length = shape.length := by
  induction shape generalizing ix with
  | nil => simp only [allIndices, List.mem_singleton] at h; subst h; rfl
  | cons n rest ih =>
    simp only [allIndices, List.mem_flatMap, List.mem_map] at h
    obtain ⟨i, _, ix', hix', rfl⟩ := h
    simp [ih ix' hix']

theorem prod_eq_one_all_one (l : List Nat) (h : l.prod = 1) : ∀ s ∈ l, s = 1 := by
  induction l with
  | nil => simp
  | cons a t ih =>
    rw [List.prod_cons] at h
    have ha : a = 1 := Nat.dvd_one.mp ⟨t.prod, h.symm⟩
    have ht : t.prod = 1 := by rw [ha, one_mul] at h; exact h
    intro s hs
    rcases List.mem_cons.mp hs with rfl | hs2
    · exact ha
    · exact ih ht s hs2

/-- If `prod srcShape = 1` (all dims are 1), the broadcast-clamped flat
index is 0: every read of a broadcast single-element input hits slot 0. -/
theorem flattenIndex_bcast_of_prod_one (srcShape ix : List Nat)
    (h1 : srcShape.prod = 1) :
    flattenIndex srcShape (bcastIndex srcShape ix) = 0 := by
  have hall : ∀ s ∈ srcShape, s = 1 := prod_eq_one_all_one srcShape h1
  rw [bcastIndex]
  generalize ix.drop (ix.length - srcShape.length) = l
  induction srcShape generalizing l with
  | nil => rfl
  | cons a t ih =>
    have ha : a = 1 := hall a (List.mem_cons_self a t)
    have ht : ∀ s ∈ t, s = 1 := fun s hs => hall s (List.mem_cons_of_mem _ hs)
    have h1t : t.prod = 1 := by rw [List.prod_cons, ha, one_mul] at h1; exact h1
    cases l with
    | nil => simp [bcastIndexAligned, flattenIndex]
    | cons i is =>
      simp [bcastIndexAligned, ha, flattenIndex, ih h1t ht is]

/-! ## CopyCPU (part_001 lines 151-193) -/

/-- Which branch of `CopyCPU` executed: the raw single-`Memcpy` fast path,
the scalar-fill fast path, or the general per-element Indexer path. -/
inductive CopyPath where
  | memcpy
  | scalarFill
  | indexer
  deriving DecidableEq, Repr

/-- Per-output-element values produced by the Indexer path of `CopyCPU`
(`DtypePolicy::NONE`; object dtypes take the opaque byte-copy kernel,
everything else `CPUCopyElementKernel<src_t, dst_t>`). -/
def indexerElems (src dst : CTensor) : List (Option Scalar) :=
  (allIndices dst.shape).map (fun ix =>
    let v := readFlat src.data (flattenIndex src.shape (bcastIndex src.shape ix))
    if src.dtype.isObject then
      -- CPUCopyObjectElementKernel: opaque byte copy, never numeric
      -- reinterpretation; reinterpretation into another dtype is outside
      -- the element-level model.
      if src.dtype = dst.dtype then some v else none
    else
      castScalar src.dtype dst.dtype v)

/-- The general Indexer path of `CopyCPU` (the final `else` branch). -/
def copyViaIndexer (src dst : CTensor) : Option (List Scalar) :=
  if bcastCompat src.shape dst.shape && (indexerElems src dst).all (·.isSome) then
    some ((indexerElems src dst).map (fun o => o.getD default))
  else none

/-- `CopyCPU(src, dst)` (part_001 lines 151-193).  Returns the new element
list of `dst` together with the branch taken; `none` covers exits the
model does not determine (a fatal error or an unmodelled float cast). -/
def CopyCPU (src dst : CTensor) : Option (List Scalar × CopyPath) :=
  if src.contiguous = true ∧ dst.contiguous = true ∧ src.shape = dst.shape ∧
      src.dtype = dst.dtype then
    -- single MemoryManager::Memcpy of byteSize * numElements bytes
    some (src.data, .memcpy)
  else if 1 < dst.numel ∧ dst.contiguous = true ∧ src.numel = 1 ∧
      src.dtype.isObject = false then
    -- scalar fill: cast the single src element once, then write it to
    -- every output slot via ParallelFor
    (castScalar src.dtype dst.dtype (readFlat src.data 0)).map
      (fun c => (List.replicate dst.numel c, .scalarFill))
  else
    (copyViaIndexer src dst).map (fun out => (out, .indexer))

theorem castDefined_not_object (sd dd : Dtype) (hcd : castDefined sd dd = true)
    (hne : sd ≠ dd) : sd.isObject = false := by
  cases sd <;>
    simp_all [castDefined, Dtype.intBits, Dtype.isObject, Dtype.isFloat]

/-- Claim C1: for contiguous tensors of the same shape and dtype, `CopyCPU`
reduces to a single raw memory copy, and for every exactly-modelled dtype
pair with equal contiguous shapes every element of `dst` after `CopyCPU`
equals the exact `static_cast` of the corresponding `src` element to the
dst dtype. -/
theorem copyCPU_contiguous_cast_contract (src dst : CTensor)
    (hsl : src.data.length = src.numel)
    (hshape : src.shape = dst.shape)
    (hsc : src.contiguous = true) (hdc : dst.contiguous = true)
    (hcd : castDefined src.dtype dst.dtype = true)
    (hwf : ∀ s ∈ src.data, s.hasDtype src.dtype = true) :
    ∃ out path, CopyCPU src dst = some (out, path) ∧
      out.length = dst.numel ∧
      (src.dtype = dst.dtype → path = CopyPath.memcpy ∧ out = src.data) ∧
      (∀ i, i < out.length →
        castScalar src.dtype dst.dtype (readFlat src.data i) =
          some (readFlat out i)) := by
  by_cases hdty : src.dtype = dst.dtype
  · refine ⟨src.data, .memcpy, ?_, ?_, fun _ => ⟨rfl, rfl⟩, ?_⟩
    · unfold CopyCPU
      rw [if_pos ⟨hsc, hdc, hshape, hdty⟩]
    · rw [hsl]; unfold CTensor.numel; rw [hshape]
    · intro i _
      rw [hdty, castScalar_same]
  · have hnumel : src.numel = dst.numel := by unfold CTensor.numel; rw [hshape]
    have hobj : src.dtype.isObject = false := castDefined_not_object _ _ hcd hdty
    have hsome : ∀ o ∈ indexerElems src dst, o.isSome = true := by
      intro o ho
      rw [indexerElems, List.mem_map] at ho
      obtain ⟨ix, hix, rfl⟩ := ho
      have hlen : ix.length = dst.shape.length := allIndices_mem_length _ _ hix
      have hbi : bcastIndex src.shape ix = ix := by
        rw [bcastIndex, hshape, hlen, Nat.sub_self, List.drop_zero]
        exact bcastIndexAligned_self _ _ hix
      have hfl : flattenIndex src.shape ix < src.data.length := by
        rw [hsl, CTensor.numel, hshape]
        exact flattenIndex_lt dst.shape ix hix
      simp only [hobj, Bool.false_eq_true, if_false, hbi]
      refine castScalar_isSome _ _ _ ?_ hcd
      rw [readFlat, List.getD_eq_getElem _ _ hfl]
      exact hwf _ (List.getElem_mem hfl)
    have hcond : (bcastCompat src.shape dst.shape &&
        (indexerElems src dst).all (·.isSome)) = true := by
      rw [hshape, bcastCompat_self, List.all_eq_true.mpr hsome, Bool.and_self]
    have hcvi : copyViaIndexer src dst =
        some ((indexerElems src dst).map (fun o => o.getD default)) := by
      rw [copyViaIndexer, if_pos hcond]
    have hnot1 : ¬(src.contiguous = true ∧ dst.contiguous = true ∧
        src.shape = dst.shape ∧ src.dtype = dst.dtype) := by
      rintro ⟨_, _, _, h⟩; exact hdty h
    have hnot2 : ¬(1 < dst.numel ∧ dst.contiguous = true ∧ src.numel = 1 ∧
        src.dtype.isObject = false) := by
      rintro ⟨ha, _, hb, _⟩; omega
    refine ⟨(indexerElems src dst).map (fun o => o.getD default), .indexer, ?_, ?_, ?_, ?_⟩
    · unfold CopyCPU
      rw [if_neg hnot1, if_neg hnot2, hcvi]; rfl
    · simp [indexerElems, allIndices_length, CTensor.numel]
    · intro h; exact absurd h hdty
    · intro i hi
      have hlen : ((indexerElems src dst).map (fun o => o.getD default)).length =
          dst.shape.prod := by
        simp [indexerElems, allIndices_length]
      have hi' : i < dst.shape.prod := by rw [← hlen]; exact hi
      have hiA : i < (allIndices dst.shape).length := by
        rw [allIndices_length]; exact hi'
      have hiE : i < (indexerElems src dst).length := by
        simp only [indexerElems, List.length_map]; exact hiA
      set aix := (allIndices dst.shape)[i] with haix
      have hmem : aix ∈ allIndices dst.shape := List.getElem_mem hiA
      have haixlen : aix.length = dst.shape.length := allIndices_mem_length _ _ hmem
      have hbi : bcastIndex src.shape aix = aix := by
        rw [bcastIndex, hshape, haixlen, Nat.sub_self, List.drop_zero]
        exact bcastIndexAligned_self _ _ hmem
      have hflat : flattenIndex dst.shape aix = i := by
        have h1 := allIndices_map_flatten dst.shape
        have h2 := List.getElem_of_eq h1 (by simpa using hiA)
        simpa using h2
      have helem : (indexerElems src dst)[i] =
          castScalar src.dtype dst.dtype (readFlat src.data i) := by
        simp only [indexerElems, List.getElem_map, ← haix, hobj, Bool.false_eq_true,
          if_false, hbi]
        rw [hshape, hflat]
      have hs : ((indexerElems src dst)[i]).isSome = true :=
        hsome _ (List.getElem_mem hiE)
      rw [helem] at hs
      obtain ⟨x, hx⟩ := Option.isSome_iff_exists.mp hs
      have hout : readFlat ((indexerElems src dst).map (fun o => o.getD default)) i = x := by
        rw [readFlat, List.getD_eq_getElem _ _ hi, List.getElem_map, helem, hx]
        rfl
      rw [hout, hx]

/-- Concrete instantiation of `copyCPU_contiguous_cast_contract` (witness):
a contiguous Int32 tensor cast-copied into an Int64 tensor. -/
theorem copyCPU_contiguous_cast_contract_witness :
    ∃ out path,
      CopyCPU ⟨[2], .int32, true, [.intv 5, .intv (-1)]⟩
          ⟨[2], .int64, true, [.intv 0, .intv 0]⟩ = some (out, path) ∧
      out.length = (⟨[2], .int64, true, [.intv 0, .intv 0]⟩ : CTensor).numel ∧
      ((⟨[2], .int32, true, [.intv 5, .intv (-1)]⟩ : CTensor).dtype =
          (⟨[2], .int64, true, [.intv 0, .intv 0]⟩ : CTensor).dtype →
        path = CopyPath.memcpy ∧ out = [.intv 5, .intv (-1)]) ∧
      (∀ i, i < out.length →
        castScalar .int32 .int64 (readFlat [.intv 5, .intv (-1)] i) =
          some (readFlat out i)) :=
  copyCPU_contiguous_cast_contract
    ⟨[2], .int32, true, [.intv 5, .intv (-1)]⟩
    ⟨[2], .int64, true, [.intv 0, .intv 0]⟩
    (by decide) (by decide) (by decide) (by decide) (by decide) (by decide)

/-- Claim C8: when a single-element input is copied into a larger
contiguous output, `CopyCPU` takes the scalar-fill fast path, and its
result equals what the general per-element Indexer path
(`copyViaIndexer`) would produce. -/
theorem copyCPU_scalarFill_refines_indexer (src dst : CTensor)
    (h1 : 1 < dst.numel) (h2 : dst.contiguous = true) (h3 : src.numel = 1)
    (h4 : src.dtype.isObject = false)
    (hcompat : bcastCompat src.shape dst.shape = true)
    (hc : (castScalar src.dtype dst.dtype (readFlat src.data 0)).isSome = true) :
    ∃ out, CopyCPU src dst = some (out, CopyPath.scalarFill) ∧
      copyViaIndexer src dst = some out := by
  obtain ⟨c, hcx⟩ := Option.isSome_iff_exists.mp hc
  have hnot1 : ¬(src.contiguous = true ∧ dst.contiguous = true ∧
      src.shape = dst.shape ∧ src.dtype = dst.dtype) := by
    rintro ⟨_, _, hsh, _⟩
    have heq : src.numel = dst.numel := by unfold CTensor.numel; rw [hsh]
    omega
  have helems : indexerElems src dst = List.replicate dst.shape.prod (some c) := by
    rw [indexerElems]
    have hone : src.shape.prod = 1 := h3
    have hpt : ∀ ix ∈ allIndices dst.shape,
        (if src.dtype.isObject = true then
          if src.dtype = dst.dtype then
            some (readFlat src.data (flattenIndex src.shape (bcastIndex src.shape ix)))
          else none
        else castScalar src.dtype dst.dtype
          (readFlat src.data (flattenIndex src.shape (bcastIndex src.shape ix)))) = some c := by
      intro ix _
      rw [flattenIndex_bcast_of_prod_one src.shape ix hone]
      simp only [h4, Bool.false_eq_true, if_false]
      exact hcx
    calc (allIndices dst.shape).map _
        = (allIndices dst.shape).map (fun _ => some c) := List.map_congr_left hpt
      _ = List.replicate dst.shape.prod (some c) := by
          rw [List.map_const', allIndices_length]
  refine ⟨List.replicate dst.numel c, ?_, ?_⟩
  · unfold CopyCPU
    rw [if_neg hnot1, if_pos ⟨h1, h2, h3, h4⟩, hcx]
    rfl
  · have hcond : (bcastCompat src.shape dst.shape &&
        (indexerElems src dst).all (·.isSome)) = true := by
      rw [hcompat, helems, Bool.true_and, List.all_eq_true]
      intro o ho
      rw [List.eq_of_mem_replicate ho]
      rfl
    rw [copyViaIndexer, if_pos hcond, helems, List.map_replicate]
    rfl

/-- Concrete instantiation of `copyCPU_scalarFill_refines_indexer`
(witness): a one-element Int32 tensor filled into a 2x2 Bool tensor. -/
theorem copyCPU_scalarFill_refines_indexer_witness :
    ∃ out,
      CopyCPU ⟨[1], .int32, true, [.intv 7]⟩
          ⟨[2, 2], .boolT, true, [.boolv false, .boolv false, .boolv false, .boolv false]⟩ =
        some (out, CopyPath.scalarFill) ∧
      copyViaIndexer ⟨[1], .int32, true, [.intv 7]⟩
          ⟨[2, 2], .boolT, true, [.boolv false, .boolv false, .boolv false, .boolv false]⟩ =
        some out :=
  copyCPU_scalarFill_refines_indexer
    ⟨[1], .int32, true, [.intv 7]⟩
    ⟨[2, 2], .boolT, true, [.boolv false, .boolv false, .boolv false, .boolv false]⟩
    (by decide) (by decide) (by decide) (by decide) (by decide) (by decide)

/-! ## Elementwise kernel dispatch (UnaryEWCPU, BinaryEWCPU)

Results are three-valued: `ok` (the produced output elements), `err` (a
`LogError`, which throws before anything is written), and `boundary` (the
code succeeds but the exact-rational model does not determine the values,
e.g. rounding float math). -/

inductive MRes (α : Type) where
  | ok (a : α)
  | err (msg : String)
  | boundary
  deriving DecidableEq, Repr

inductive DtypePolicy where
  | ALL_SAME
  | INPUT_SAME_OUTPUT_BOOL
  | NONE
  deriving DecidableEq, Repr

/-- Construction-time checks of `Indexer` (Indexer.h/cpp is not under
src/).  Modelled from the spec: inputs must broadcast to the output shape;
`ALL_SAME` requires one shared dtype across operands;
`INPUT_SAME_OUTPUT_BOOL` requires equal input dtypes and a Bool output;
`NONE` does no dtype check. -/
def indexerCheck (inDtypes : List Dtype) (outDtype : Dtype)
    (inShapes : List (List Nat)) (outShape : List Nat)
    (p : DtypePolicy) : Option String :=
  if ¬ inShapes.all (fun s => bcastCompat s outShape) then
    some "Indexer shape mismatch."
  else
    match p with
    | .ALL_SAME =>
      if inDtypes.all (· == outDtype) then none else some "Indexer dtype mismatch."
    | .INPUT_SAME_OUTPUT_BOOL =>
      if inDtypes.all (· == inDtypes.headD outDtype) && (outDtype == .boolT) then none
      else some "Indexer dtype mismatch."
    | .NONE => none

/-- `static_cast<bool>(value)`: exact zero test (exact also for finite
float values). -/
def scalarToBool : Scalar → Option Bool
  | .intv v => some (decide (v ≠ 0))
  | .boolv b => some b
  | .floatv q => some (decide (q ≠ 0))
  | .objv _ => none

/-- `static_cast<dst_t>(bool_value)` (exact for every numeric dtype). -/
def castBoolTo (dd : Dtype) (b : Bool) : Option Scalar :=
  match dd.intBits with
  | some (w, sg) => some (.intv (wrapTo w sg (if b then 1 else 0)))
  | none =>
    if dd = .boolT then some (.boolv b)
    else if dd.isFloat then some (.floatv (if b then 1 else 0)) else none

/-- `CPULogicalNotElementKernel<src_t, dst_t>` (part_001 lines 145-149). -/
def logicalNotKernel (dd : Dtype) (s : Scalar) : Option Scalar := do
  let b ← scalarToBool s
  castBoolTo dd (!b)

/-- Integer unary kernels that the source routes through `double`
(`std::floor(static_cast<double>(v))` etc.): exact whenever the value
round-trips through double; larger magnitudes are outside the model. -/
def viaDouble (w : Nat) (sg : Bool) (f : Int → Int) (v : Int) : Option Scalar :=
  if v.natAbs ≤ 2 ^ 53 ∧ (f v).natAbs ≤ 2 ^ 53 then
    some (.intv (wrapTo w sg (f v)))
  else none

/-- Truncation toward zero of a rational (semantics of `std::trunc`). -/
def truncQ (q : ℚ) : ℚ := if q < 0 then (⌈q⌉ : ℤ) else (⌊q⌋ : ℤ)

/-- `std::round`: half away from zero. -/
def roundHalfAway (q : ℚ) : ℚ :=
  if q < 0 then -((⌊-q + 1/2⌋ : ℤ) : ℚ) else ((⌊q + 1/2⌋ : ℤ) : ℚ)

inductive UnaryEWOpCode where
  | Sqrt
  | Sin
  | Cos
  | Neg
  | Exp
  | Abs
  | Floor
  | Ceil
  | Round
  | Trunc
  | LogicalNot
  | IsNan
  | IsInf
  | IsFinite
  deriving DecidableEq, Repr

/-- Element kernels of the non-logical unary branch (part_001 lines 67-143).
Rounding float math (sqrt/sin/cos/exp) is not determined by the
exact-rational model; neg/abs/floor/ceil/round/trunc on floats are exact. -/
def unaryElementKernel (op : UnaryEWOpCode) (d : Dtype) (s : Scalar) : Option Scalar :=
  match op, s with
  | .Neg, .intv v =>
    match d.intBits with
    | some (w, sg) => some (.intv (wrapTo w sg (-v)))
    | none => none
  | .Neg, .floatv q => some (.floatv (-q))
  | .Abs, .intv v =>
    match d.intBits with
    | some (w, sg) => viaDouble w sg (fun x => |x|) v
    | none => none
  | .Abs, .floatv q => some (.floatv |q|)
  | .Floor, .intv v =>
    match d.intBits with
    | some (w, sg) => viaDouble w sg id v
    | none => none
  | .Ceil, .intv v =>
    match d.intBits with
    | some (w, sg) => viaDouble w sg id v
    | none => none
  | .Round, .intv v =>
    match d.intBits with
    | some (w, sg) => viaDouble w sg id v
    | none => none
  | .Trunc, .intv v =>
    match d.intBits with
    | some (w, sg) => viaDouble w sg id v
    | none => none
  | .Floor, .floatv q => some (.floatv ((⌊q⌋ : ℤ) : ℚ))
  | .Ceil, .floatv q => some (.floatv ((⌈q⌉ : ℤ) : ℚ))
  | .Round, .floatv q => some (.floatv (roundHalfAway q))
  | .Trunc, .floatv q => some (.floatv (truncQ q))
  | _, _ => none

/-- `LaunchUnaryEWKernel` (part_001 lines 44-51): apply the element kernel
at every output position through the Indexer.  `ParallelFor` writes are
independent per position, so the parallel loop equals the positional map. -/
def launchUnaryEW (src dst : CTensor) (k : Scalar → Option Scalar) : MRes (List Scalar) :=
  let elems := (allIndices dst.shape).map (fun ix =>
    k (readFlat src.data (flattenIndex src.shape (bcastIndex src.shape ix))))
  if elems.all (·.isSome) then .ok (elems.map (fun o => o.getD default))
  else .boundary

/-- `assert_dtype_is_float` (part_001 lines 200-206). -/
def assertDtypeIsFloat (d : Dtype) : Option String :=
  if d ≠ .float32 ∧ d ≠ .float64 then
    some "Only supports Float32 and Float64, but another dtype is used."
  else none

/-- `UnaryEWCPU(src, dst, op_code)` (part_001 lines 195-291). -/
def UnaryEWCPU (src dst : CTensor) (op : UnaryEWOpCode) : MRes (List Scalar) :=
  if op = .LogicalNot then
    if src.dtype.dispatchableWithBool = false then .err "Unsupported data type."
    else if dst.dtype = src.dtype then
      match indexerCheck [src.dtype] dst.dtype [src.shape] dst.shape .ALL_SAME with
      | some e => .err e
      | none => launchUnaryEW src dst (logicalNotKernel dst.dtype)
    else if dst.dtype = .boolT then
      match indexerCheck [src.dtype] dst.dtype [src.shape] dst.shape
          .INPUT_SAME_OUTPUT_BOOL with
      | some e => .err e
      | none => launchUnaryEW src dst (logicalNotKernel .boolT)
    else .err "Boolean op output type must be boolean or the same type as the input."
  else if op = .IsNan ∨ op = .IsInf ∨ op = .IsFinite then
    match assertDtypeIsFloat src.dtype with
    | some e => .err e
    | none =>
      match indexerCheck [src.dtype] dst.dtype [src.shape] dst.shape
          .INPUT_SAME_OUTPUT_BOOL with
      | some e => .err e
      | none =>
        if src.dtype.dispatchable = false then .err "Unsupported data type."
        else
          -- CPUIsNanElementKernel / CPUIsInfElementKernel /
          -- CPUIsFiniteElementKernel classify NaN/Inf bit patterns, which
          -- the exact-rational float model does not represent.
          launchUnaryEW src dst (fun _ => none)
  else
    match indexerCheck [src.dtype] dst.dtype [src.shape] dst.shape .ALL_SAME with
    | some e => .err e
    | none =>
      if src.dtype.dispatchable = false then .err "Unsupported data type."
      else
        match op with
        | .Sqrt | .Sin | .Cos | .Exp =>
          match assertDtypeIsFloat src.dtype with
          | some e => .err e
          | none => launchUnaryEW src dst (unaryElementKernel op src.dtype)
        | .Neg | .Abs | .Floor | .Ceil | .Round | .Trunc =>
          launchUnaryEW src dst (unaryElementKernel op src.dtype)
        | _ => .err "Unimplemented op_code for UnaryEWCPU"

inductive BinaryEWOpCode where
  | Add
  | Sub
  | Mul
  | Div
  | LogicalAnd
  | LogicalOr
  | LogicalXor
  | Gt
  | Lt
  | Ge
  | Le
  | Eq
  | Ne
  deriving DecidableEq, Repr

/-- Membership in `s_boolean_binary_ew_op_codes` (BinaryEW.h is not under
src/; the set is modelled from the spec: the three logical ops and the six
comparison operators produce same-typed or boolean results). -/
def isBooleanBinaryOp : BinaryEWOpCode → Bool
  | .LogicalAnd | .LogicalOr | .LogicalXor
  | .Gt | .Lt | .Ge | .Le | .Eq | .Ne => true
  | _ => false

/-- Comparison of two same-dtype scalars (exact for integers, bools, and
finite float values; NaN is not representable in the model). -/
def scalarCmp : Scalar → Scalar → Option Ordering
  | .intv a, .intv b => some (compare a b)
  | .boolv a, .boolv b => some (compare (cond a 1 0 : Nat) (cond b 1 0))
  | .floatv a, .floatv b => some (compare a b)
  | _, _ => none

/-- Element kernels of the boolean-family binary ops
(part_002 lines 75-136), with the result cast to the output dtype. -/
def boolBinaryElementKernel (op : BinaryEWOpCode) (dd : Dtype)
    (a b : Scalar) : Option Scalar :=
  match op with
  | .LogicalAnd => do castBoolTo dd ((← scalarToBool a) && (← scalarToBool b))
  | .LogicalOr => do castBoolTo dd ((← scalarToBool a) || (← scalarToBool b))
  | .LogicalXor => do castBoolTo dd ((← scalarToBool a) != (← scalarToBool b))
  | .Gt => do castBoolTo dd ((← scalarCmp a b) == .gt)
  | .Lt => do castBoolTo dd ((← scalarCmp a b) == .lt)
  | .Ge => do castBoolTo dd ((← scalarCmp a b) != .lt)
  | .Le => do castBoolTo dd ((← scalarCmp a b) != .gt)
  | .Eq => do castBoolTo dd ((← scalarCmp a b) == .eq)
  | .Ne => do castBoolTo dd ((← scalarCmp a b) != .eq)
  | _ => none

/-- Element kernels of add/sub/mul/div (part_002 lines 51-73).  Integer
arithmetic wraps; division by zero and rounding float arithmetic are not
determined by the model. -/
def arithElementKernel (op : BinaryEWOpCode) (d : Dtype)
    (a b : Scalar) : Option Scalar :=
  match a, b with
  | .intv x, .intv y =>
    match d.intBits with
    | some (w, sg) =>
      match op with
      | .Add => some (.intv (wrapTo w sg (x + y)))
      | .Sub => some (.intv (wrapTo w sg (x - y)))
      | .Mul => some (.intv (wrapTo w sg (x * y)))
      | .Div => if y = 0 then none else some (.intv (wrapTo w sg (Int.tdiv x y)))
      | _ => none
    | none => none
  | _, _ => none

/-- `LaunchBinaryEWKernel` (part_002 lines 41-49). -/
def launchBinaryEW (lhs rhs dst : CTensor)
    (k : Scalar → Scalar → Option Scalar) : MRes (List Scalar) :=
  let elems := (allIndices dst.shape).map (fun ix =>
    k (readFlat lhs.data (flattenIndex lhs.shape (bcastIndex lhs.shape ix)))
      (readFlat rhs.data (flattenIndex rhs.shape (bcastIndex rhs.shape ix))))
  if elems.all (·.isSome) then .ok (elems.map (fun o => o.getD default))
  else .boundary

/-- `BinaryEWCPU(lhs, rhs, dst, op_code)` (part_002 lines 180-234). -/
def BinaryEWCPU (lhs rhs dst : CTensor) (op : BinaryEWOpCode) : MRes (List Scalar) :=
  if isBooleanBinaryOp op = true then
    if lhs.dtype.dispatchableWithBool = false then .err "Unsupported data type."
    else if dst.dtype = lhs.dtype then
      match indexerCheck [lhs.dtype, rhs.dtype] dst.dtype [lhs.shape, rhs.shape]
          dst.shape .ALL_SAME with
      | some e => .err e
      | none => launchBinaryEW lhs rhs dst (boolBinaryElementKernel op dst.dtype)
    else if dst.dtype = .boolT then
      match indexerCheck [lhs.dtype, rhs.dtype] dst.dtype [lhs.shape, rhs.shape]
          dst.shape .INPUT_SAME_OUTPUT_BOOL with
      | some e => .err e
      | none => launchBinaryEW lhs rhs dst (boolBinaryElementKernel op .boolT)
    else .err "Boolean op output type must be boolean or the same type as the input."
  else
    match indexerCheck [lhs.dtype, rhs.dtype] dst.dtype [lhs.shape, rhs.shape]
        dst.shape .ALL_SAME with
    | some e => .err e
    | none =>
      if lhs.dtype.dispatchable = false then .err "Unsupported data type."
      else launchBinaryEW lhs rhs dst (arithElementKernel op lhs.dtype)

/-- Claim C5: `UnaryEWCPU` with op Sqrt, Sin, Cos, Exp, IsNan, IsInf or
IsFinite on an input whose dtype is not Float32 or Float64 fails with an
error and never computes or writes a result. -/
theorem unaryEWCPU_requires_float (src dst : CTensor) (op : UnaryEWOpCode)
    (hop : op = .Sqrt ∨ op = .Sin ∨ op = .Cos ∨ op = .Exp ∨
      op = .IsNan ∨ op = .IsInf ∨ op = .IsFinite)
    (h32 : src.dtype ≠ .float32) (h64 : src.dtype ≠ .float64) :
    ∃ msg, UnaryEWCPU src dst op = .err msg := by
  have hassert : assertDtypeIsFloat src.dtype =
      some "Only supports Float32 and Float64, but another dtype is used." := by
    rw [assertDtypeIsFloat, if_pos ⟨h32, h64⟩]
  have hmath : ∀ op2 : UnaryEWOpCode,
      op2 = .Sqrt ∨ op2 = .Sin ∨ op2 = .Cos ∨ op2 = .Exp →
      ∃ msg, UnaryEWCPU src dst op2 = .err msg := by
    intro op2 hop2
    cases hic : indexerCheck [src.dtype] dst.dtype [src.shape] dst.shape .ALL_SAME with
    | some e =>
      rcases hop2 with rfl | rfl | rfl | rfl <;>
        exact ⟨e, by simp [UnaryEWCPU, hic]⟩
    | none =>
      by_cases hd : src.dtype.dispatchable = false
      · rcases hop2 with rfl | rfl | rfl | rfl <;>
          exact ⟨"Unsupported data type.", by simp [UnaryEWCPU, hic, hd]⟩
      · rcases hop2 with rfl | rfl | rfl | rfl <;>
          exact ⟨"Only supports Float32 and Float64, but another dtype is used.",
            by simp [UnaryEWCPU, hic, hd, hassert]⟩
  rcases hop with h | h | h | h | rfl | rfl | rfl
  · exact hmath _ (Or.inl h)
  · exact hmath _ (Or.inr (Or.inl h))
  · exact hmath _ (Or.inr (Or.inr (Or.inl h)))
  · exact hmath _ (Or.inr (Or.inr (Or.inr h)))
  · exact ⟨"Only supports Float32 and Float64, but another dtype is used.",
      by simp [UnaryEWCPU, hassert]⟩
  · exact ⟨"Only supports Float32 and Float64, but another dtype is used.",
      by simp [UnaryEWCPU, hassert]⟩
  · exact ⟨"Only supports Float32 and Float64, but another dtype is used.",
      by simp [UnaryEWCPU, hassert]⟩

/-- Concrete instantiation of `unaryEWCPU_requires_float` (witness):
Sqrt on an Int32 tensor errors. -/
theorem unaryEWCPU_requires_float_witness :
    ∃ msg,
      UnaryEWCPU ⟨[2], .int32, true, [.intv 4, .intv 9]⟩
        ⟨[2], .int32, true, [.intv 0, .intv 0]⟩ .Sqrt = .err msg :=
  unaryEWCPU_requires_float
    ⟨[2], .int32, true, [.intv 4, .intv 9]⟩
    ⟨[2], .int32, true, [.intv 0, .intv 0]⟩ .Sqrt
    (by decide) (by decide) (by decide)

/-- Claim C6: every boolean-family elementwise operation (binary logical
and/or/xor, the six comparisons, unary logical-not) fails with an error
whenever the output dtype is neither the input dtype nor Bool. -/
theorem booleanOps_output_dtype_policy (lhs rhs dst src udst : CTensor)
    (bop : BinaryEWOpCode)
    (hbool : isBooleanBinaryOp bop = true)
    (hbne : dst.dtype ≠ lhs.dtype) (hbnb : dst.dtype ≠ .boolT)
    (hune : udst.dtype ≠ src.dtype) (hunb : udst.dtype ≠ .boolT) :
    (∃ msg, BinaryEWCPU lhs rhs dst bop = .err msg) ∧
    (∃ msg, UnaryEWCPU src udst .LogicalNot = .err msg) := by
  constructor
  · by_cases hdw : lhs.dtype.dispatchableWithBool = false
    · exact ⟨"Unsupported data type.", by simp [BinaryEWCPU, hbool, hdw]⟩
    · exact ⟨"Boolean op output type must be boolean or the same type as the input.",
        by simp [BinaryEWCPU, hbool, hdw, hbne, hbnb]⟩
  · by_cases hdw : src.dtype.dispatchableWithBool = false
    · exact ⟨"Unsupported data type.", by simp [UnaryEWCPU, hdw]⟩
    · exact ⟨"Boolean op output type must be boolean or the same type as the input.",
        by simp [UnaryEWCPU, hdw, hune, hunb]⟩

/-- Concrete instantiation of `booleanOps_output_dtype_policy` (witness):
Gt of Int32 tensors into an Int64 output errors, and logical-not of an
Int32 tensor into a Float32 output errors. -/
theorem booleanOps_output_dtype_policy_witness :
    (∃ msg,
      BinaryEWCPU ⟨[1], .int32, true, [.intv 1]⟩ ⟨[1], .int32, true, [.intv 2]⟩
        ⟨[1], .int64, true, [.intv 0]⟩ .Gt = .err msg) ∧
    (∃ msg,
      UnaryEWCPU ⟨[1], .int32, true, [.intv 1]⟩
        ⟨[1], .float32, true, [.floatv 0]⟩ .LogicalNot = .err msg) :=
  booleanOps_output_dtype_policy
    ⟨[1], .int32, true, [.intv 1]⟩ ⟨[1], .int32, true, [.intv 2]⟩
    ⟨[1], .int64, true, [.intv 0]⟩
    ⟨[1], .int32, true, [.intv 1]⟩ ⟨[1], .float32, true, [.floatv 0]⟩
    .Gt (by decide) (by decide) (by decide) (by decide) (by decide)

/-! ## CUDA device-query surface (CUDAUtils.cpp) -/

/-- Compile-time and runtime configuration of the CUDA backend.
`cudaStateDevices = none` models `CUDAState::GetInstance()` throwing a
runtime error (CUDAState.cuh is not under src/; only its catchable-throw
behavior, visible at the call site in `DeviceCount`, is modelled). -/
structure CudaEnv where
  buildCudaModule : Bool
  buildCachedCudaManager : Bool
  cudaStateDevices : Option Nat

/-- `CUDAState::GetInstance()->GetNumDevices()` as a throwing call. -/
def getNumDevicesE (env : CudaEnv) : Except String Nat :=
  match env.cudaStateDevices with
  | some n => .ok n
  | none => .error "CUDAState runtime error"

/-- `cuda::DeviceCount()` (CUDAUtils.cpp lines 57-68): 0 when the CUDA
module is compiled out; catches the CUDAState exception and returns 0.
Total by construction — it never raises. -/
def cuda.DeviceCount (env : CudaEnv) : Nat :=
  if env.buildCudaModule then
    match getNumDevicesE env with
    | .ok n => n
    | .error _ => 0
  else 0

/-- `cuda::IsAvailable()` (CUDAUtils.cpp line 70). -/
def cuda.IsAvailable (env : CudaEnv) : Bool :=
  decide (cuda.DeviceCount env > 0)

/-- The caching allocator state: the cached-but-unused blocks, each tagged
with the CUDA device ordinal it was allocated on. -/
structure CacheState where
  blocks : List (Nat × Nat)
  deriving DecidableEq, Repr

/-- `cuda::ReleaseCache()` (CUDAUtils.cpp lines 72-88): with the cached
CUDA manager built it releases every cached block
(`CachedMemoryManager::ReleaseCache()` is not under src/; modelled from
the spec: returns all cached-but-unused blocks to the allocator);
otherwise it only logs a warning.  Total — it never raises. -/
def cuda.ReleaseCache (env : CudaEnv) (cache : CacheState) : CacheState :=
  if env.buildCudaModule then
    if env.buildCachedCudaManager then { blocks := [] } else cache
  else cache

/-- Claim C9: with no accelerator present (CUDA module not built, or no
usable device), `DeviceCount` is 0, `IsAvailable` is false, and
`ReleaseCache` leaves a well-formed cache unchanged; all three are total
(never raise), and `IsAvailable` equals `DeviceCount > 0` always. -/
theorem cuda_no_accelerator_safe (env : CudaEnv) (cache : CacheState)
    (hno : env.buildCudaModule = false ∨ cuda.DeviceCount env = 0)
    (hwf : ∀ b ∈ cache.blocks, b.1 < cuda.DeviceCount env) :
    cuda.DeviceCount env = 0 ∧
    cuda.IsAvailable env = false ∧
    cuda.ReleaseCache env cache = cache ∧
    (∀ env2 : CudaEnv, cuda.IsAvailable env2 = decide (cuda.DeviceCount env2 > 0)) := by
  have hdc : cuda.DeviceCount env = 0 := by
    rcases hno with h | h
    · simp [cuda.DeviceCount, h]
    · exact h
  have hempty : cache.blocks = [] := by
    cases hb : cache.blocks with
    | nil => rfl
    | cons x xs =>
      have := hwf x (by rw [hb]; exact List.mem_cons_self x xs)
      rw [hdc] at this
      exact absurd this (Nat.not_lt_zero _)
  refine ⟨hdc, ?_, ?_, fun _ => rfl⟩
  · rw [cuda.IsAvailable, hdc]; rfl
  · cases cache with
    | mk blocks =>
      simp only at hempty
      subst hempty
      rw [cuda.ReleaseCache]
      split <;> [skip; rfl]
      split <;> rfl

/-- Concrete instantiation of `cuda_no_accelerator_safe` (witness): a
build without the CUDA module and an empty cache. -/
theorem cuda_no_accelerator_safe_witness :
    cuda.DeviceCount ⟨false, false, none⟩ = 0 ∧
    cuda.IsAvailable ⟨false, false, none⟩ = false ∧
    cuda.ReleaseCache ⟨false, false, none⟩ ⟨[]⟩ = ⟨[]⟩ ∧
    (∀ env2 : CudaEnv,
      cuda.IsAvailable env2 = decide (cuda.DeviceCount env2 > 0)) :=
  cuda_no_accelerator_safe ⟨false, false, none⟩ ⟨[]⟩ (Or.inl rfl)
    (by intro b hb; exact absurd hb (List.not_mem_nil b))

/-! ## FixedRadiusIndex (FixedRadiusIndex.cpp and part_003)

The host-side control flow (argument checks, sizes, allocation lengths,
call protocol) is translated from FixedRadiusIndex.cpp.  The CUDA device
kernels (`BuildSpatialHashTableCUDA`, `FixedRadiusSearchCUDA`,
`HybridSearchCUDA`, `SortPairs`) are not under src/ and are modelled from
the spec, with point coordinates as exact rationals. -/

inductive DeviceType where
  | CPU
  | CUDA
  deriving DecidableEq, Repr

structure Device where
  kind : DeviceType
  ordinal : Nat
  deriving DecidableEq, Repr

/-- A point tensor: an `[n, d]`-shaped tensor of float coordinates,
carried as the exact rational values of the stored floats. -/
structure PTensor where
  shape : List Nat
  dtype : Dtype
  device : Device
  rows : List (List ℚ)
  deriving DecidableEq, Repr

structure BuiltIndex where
  datasetPoints : PTensor
  pointsRowSplits : List Nat
  hashTableSplits : List Nat
  hashTableCellSplits : List Nat
  hashTableIndex : List Nat
  deriving DecidableEq, Repr

structure FixedRadiusIndex where
  built : Option BuiltIndex
  deriving DecidableEq, Repr

inductive DevOp where
  | buildHash
  | radiusSearch
  | hybridSearch
  | sortPairs
  deriving DecidableEq, Repr

/-- One device-kernel invocation as seen at the call site: a size-probe
call (null scratch pointer, only reports the required byte count), an
execute call carrying a scratch buffer of the given size, or a direct
call whose signature has no scratch arguments at all. -/
inductive DevCall where
  | probe (op : DevOp) (reported : Nat)
  | exec (op : DevOp) (scratchBytes : Nat)
  | direct (op : DevOp)
  deriving DecidableEq, Repr

/-- The two-pass size-probe-then-execute protocol: the trace is a sequence
of pairs in which a probe of an op is immediately followed by an execution
of the same op with a scratch buffer of exactly the reported size. -/
def twoPassProtocol : List DevCall → Bool
  | [] => true
  | .probe op s :: .exec op2 s2 :: rest =>
    op == op2 && s == s2 && twoPassProtocol rest
  | _ => false

/-- Environment of the device kernels.  `cellOf` abstracts the spatial
hash of a point at a radius-derived cell size; the `TempBytes` fields are
the scratch sizes the size-probe invocations report. -/
structure NnsEnv where
  buildCudaModule : Bool
  cellOf : List ℚ → ℚ → Nat
  buildTempBytes : Nat
  radiusTempBytes : Nat
  sortTempBytes : Nat

/-- Modelled from the spec: `BuildSpatialHashTableCUDA` (declared in
FixedRadiusSearch.h, not under src/) hashes each dataset point to a cell
and produces the sorted bucket layout — `hash_table_cell_splits` as the
cumulative cell counts and `hash_table_index` as the point indices grouped
into contiguous cell buckets. -/
def buildSpatialHashTable (cell : Nat → Nat) (n tsize : Nat) : List Nat × List Nat :=
  ((List.range (tsize + 1)).map
      (fun j => ((List.range n).filter (fun i => cell i % tsize < j)).length),
    (List.range tsize).flatMap
      (fun b => (List.range n).filter (fun i => cell i % tsize = b)))

/-- `FixedRadiusIndex::SetTensorData(dataset_points, radius)`
(FixedRadiusIndex.cpp lines 49-110).  `hash_table_size` is
`min(max(hash_table_size_factor * n, 1), max_hash_tabls_size)` with
factor 1.0/32 computed in double: exactly `n / 32` truncated (the double
product is exact for every realistic n). -/
def FixedRadiusIndex.SetTensorData (env : NnsEnv) (idx : FixedRadiusIndex)
    (pts : PTensor) (radius : ℚ) :
    Except String (FixedRadiusIndex × List DevCall) :=
  if env.buildCudaModule = false then
    .error "FixedRadiusIndex::SetTensorData BUILD_CUDA_MODULE is OFF. Please compile Open3d with BUILD_CUDA_MODULE=ON."
  else if pts.device.kind ≠ .CUDA then
    .error "[FixedRadiusIndex::SetTensorData] dataset_points should be GPU Tensor."
  else if radius ≤ 0 then
    .error "[FixedRadiusIndex::SetTensorData] radius should be positive."
  else if pts.dtype.isFloat = false then
    -- DISPATCH_FLOAT_DTYPE_TO_TEMPLATE
    .error "Unsupported data type."
  else
    let n := pts.rows.length
    let tsize := min (max (n / 32) 1) 33554432
    let cell := fun i => env.cellOf (pts.rows.getD i []) radius
    .ok ({ built := some {
        datasetPoints := pts
        pointsRowSplits := [0, n]
        hashTableSplits := [0, tsize]
        hashTableCellSplits := (buildSpatialHashTable cell n tsize).1
        hashTableIndex := (buildSpatialHashTable cell n tsize).2 } },
      [.probe .buildHash env.buildTempBytes, .exec .buildHash env.buildTempBytes])

/-- Squared Euclidean distance of two coordinate rows. -/
def sqDist (p q : List ℚ) : ℚ :=
  (List.zipWith (fun a b => (a - b) * (a - b)) p q).sum

/-- All dataset points within Euclidean `radius` of query row `q`
(the search kernels are not under src/; modelled from the spec). -/
def inRadiusNeighbors (dataset : List (List ℚ)) (q : List ℚ) (radius : ℚ) : List Nat :=
  (List.range dataset.length).filter
    (fun j => sqDist q (dataset.getD j []) ≤ radius * radius)

/-- `FixedRadiusIndex::SearchRadius(query_points, radius, sort)`
(FixedRadiusIndex.cpp lines 112-223).  The unbuilt-index failure is
spec-modelled: on an index without a built hash table the dataset
dtype/shape accessors cannot match any valid query, so the argument
asserts fail. -/
def FixedRadiusIndex.SearchRadius (env : NnsEnv) (idx : FixedRadiusIndex)
    (query : PTensor) (radius : ℚ) (sort : Bool) :
    Except String ((List Nat × List ℚ × List Nat) × List DevCall) :=
  if env.buildCudaModule = false then
    .error "FixedRadiusIndex::SearchRadius BUILD_CUDA_MODULE is OFF. Please compile Open3d with BUILD_CUDA_MODULE=ON."
  else
    match idx.built with
    | none => .error "[FixedRadiusIndex::SearchRadius] index has not been built."
    | some b =>
      if query.dtype ≠ b.datasetPoints.dtype then
        .error "Tensor has dtype mismatch."
      else if ¬ (query.shape.length = 2 ∧
          query.shape.getD 1 0 = b.datasetPoints.shape.getD 1 0) then
        .error "Tensor has shape mismatch."
      else if query.device ≠ b.datasetPoints.device then
        .error "Tensor has device mismatch."
      else if radius ≤ 0 then
        .error "[FixedRadiusIndex::SearchRadius] radius should be positive."
      else
        let dataset := b.datasetPoints.rows
        let m := query.rows.length
        let nbrs := fun qi => inRadiusNeighbors dataset (query.rows.getD qi []) radius
        let rowSplits := (List.range (m + 1)).map
          (fun j => (((List.range m).take j).map (fun qi => (nbrs qi).length)).sum)
        let pairsOf := fun qi => (nbrs qi).map
          (fun j => (j, sqDist (query.rows.getD qi []) (dataset.getD j [])))
        let pairs := (List.range m).flatMap (fun qi =>
          if sort then (pairsOf qi).insertionSort (fun a b => a.2 ≤ b.2)
          else pairsOf qi)
        let trace := [DevCall.probe .radiusSearch env.radiusTempBytes,
            DevCall.exec .radiusSearch env.radiusTempBytes] ++
          (if sort then [DevCall.probe .sortPairs env.sortTempBytes,
              DevCall.exec .sortPairs env.sortTempBytes] else [])
        .ok ((pairs.map Prod.fst, pairs.map Prod.snd, rowSplits), trace)

structure HybridResult where
  indices : List Int
  distances : List ℚ
  counts : List Nat
  deriving DecidableEq, Repr

/-- `FixedRadiusIndex::SearchHybrid(query_points, radius, max_knn)`
(FixedRadiusIndex.cpp lines 225-277).  `HybridSearchCUDA` is not under
src/; modelled from the spec: per query the in-radius neighbors capped at
`max_knn`, fixed-width rows padded with a sentinel, plus per-query actual
counts.  Note: the source performs a single `HybridSearchCUDA` invocation
with no scratch arguments (no size-probe pass). -/
def FixedRadiusIndex.SearchHybrid (env : NnsEnv) (idx : FixedRadiusIndex)
    (query : PTensor) (radius : ℚ) (maxKnn : Nat) :
    Except String (HybridResult × List DevCall) :=
  if env.buildCudaModule = false then
    .error "FixedRadiusIndex::SearchHybrid BUILD_CUDA_MODULE is OFF. Please compile Open3d with BUILD_CUDA_MODULE=ON."
  else
    match idx.built with
    | none => .error "[FixedRadiusIndex::SearchHybrid] index has not been built."
    | some b =>
      if query.dtype ≠ b.datasetPoints.dtype then
        .error "Tensor has dtype mismatch."
      else if ¬ (query.shape.length = 2 ∧
          query.shape.getD 1 0 = b.datasetPoints.shape.getD 1 0) then
        .error "Tensor has shape mismatch."
      else if query.device ≠ b.datasetPoints.device then
        .error "Tensor has device mismatch."
      else if radius ≤ 0 then
        -- the source reuses the SearchRadius message here
        .error "[FixedRadiusIndex::SearchRadius] radius should be positive."
      else
        let dataset := b.datasetPoints.rows
        let m := query.rows.length
        let nbrs := fun qi => inRadiusNeighbors dataset (query.rows.getD qi []) radius
        let capped := fun qi => (nbrs qi).take maxKnn
        let irow := fun qi => ((capped qi).map Int.ofNat) ++
          List.replicate (maxKnn - (capped qi).length) (-1 : Int)
        let drow := fun qi => ((capped qi).map
            (fun j => sqDist (query.rows.getD qi []) (dataset.getD j []))) ++
          List.replicate (maxKnn - (capped qi).length) (0 : ℚ)
        .ok ({ indices := (List.range m).flatMap irow
               distances := (List.range m).flatMap drow
               counts := (List.range m).map (fun qi => (capped qi).length) },
          [DevCall.direct .hybridSearch])

/-- `FixedRadiusIndex::SetTensorData(dataset_points)` without a radius
(part_003 lines 57-61): unconditionally a fatal error. -/
def FixedRadiusIndex.SetTensorDataNoRadius (idx : FixedRadiusIndex)
    (pts : PTensor) : Except String Bool :=
  .error "FixedRadiusIndex::SetTensorData witout radius not implemented."

/-- `FixedRadiusIndex::SearchKnn` (part_003 lines 65-68): unconditionally
a fatal error. -/
def FixedRadiusIndex.SearchKnn (idx : FixedRadiusIndex) (query : PTensor)
    (knn : Int) : Except String (PTensor × PTensor) :=
  .error "FixedRadiusIndex::SearchKnn not implemented."

/-- `FixedRadiusIndex::SearchRadius` with a tensor of per-query radii
(part_003 lines 70-77): unconditionally a fatal error. -/
def FixedRadiusIndex.SearchRadiusMultiRadii (idx : FixedRadiusIndex)
    (query : PTensor) (radii : List ℚ) (sort : Bool) :
    Except String (PTensor × PTensor × PTensor) :=
  .error "FixedRadiusIndex::SearchRadius with multi-radii not implemented."

theorem filter_length_mono (l : List Nat) (p q : Nat → Bool)
    (himp : ∀ x, p x = true → q x = true) :
    (l.filter p).length ≤ (l.filter q).length := by
  induction l with
  | nil => simp
  | cons a t ih =>
    by_cases hp : p a = true
    · rw [List.filter_cons_of_pos hp, List.filter_cons_of_pos (himp a hp)]
      simpa using ih
    · rw [List.filter_cons_of_neg (by simpa using hp)]
      by_cases hq : q a = true
      · rw [List.filter_cons_of_pos hq, List.length_cons]
        exact le_trans ih (Nat.le_succ _)
      · rw [List.filter_cons_of_neg (by simpa using hq)]
        exact ih

theorem filter_lt_succ_split (l : List Nat) (c : Nat → Nat) (k : Nat) :
    (l.filter (fun i => c i < k + 1)).length =
      (l.filter (fun i => c i < k)).length +
        (l.filter (fun i => c i = k)).length := by
  induction l with
  | nil => simp
  | cons a t ih =>
    by_cases h1 : c a < k
    · have h2 : c a < k + 1 := Nat.lt_succ_of_lt h1
      have h3 : ¬ c a = k := Nat.ne_of_lt h1
      simp [List.filter_cons, h1, h2, h3, ih]
      try omega
    · by_cases h4 : c a = k
      · have h2 : c a < k + 1 := by omega
        simp [List.filter_cons, h1, h2, h4, ih]
        try omega
      · have h2 : ¬ c a < k + 1 := by omega
        simp [List.filter_cons, h1, h2, h4, ih]
        try omega

theorem bucket_concat_length (n t : Nat) (c : Nat → Nat) :
    ((List.range t).flatMap
        (fun b => (List.range n).filter (fun i => c i = b))).length =
      ((List.range n).filter (fun i => c i < t)).length := by
  induction t with
  | zero => simp
  | succ k ih =>
    rw [List.range_succ, List.flatMap_append, List.length_append, ih,
      filter_lt_succ_split]
    simp [List.flatMap]

theorem splits_getD (cell : Nat → Nat) (n tsize i : Nat) (hi : i < tsize + 1) :
    (buildSpatialHashTable cell n tsize).1.getD i 0 =
      ((List.range n).filter (fun x => cell x % tsize < i)).length := by
  simp only [buildSpatialHashTable]
  rw [List.getD_eq_getElem _ _ (by simpa using hi), List.getElem_map,
    List.getElem_range]

/-- Claim C2: after a successful `SetTensorData` on n points, the hash
table size is `min(max(n / 32, 1), 33554432)`, `hash_table_cell_splits`
has length size + 1 and is monotonically non-decreasing, and
`hash_table_index` has length n. -/
theorem setTensorData_hash_invariants (env : NnsEnv) (idx : FixedRadiusIndex)
    (pts : PTensor) (radius : ℚ) (idx2 : FixedRadiusIndex) (trace : List DevCall)
    (h : FixedRadiusIndex.SetTensorData env idx pts radius = .ok (idx2, trace)) :
    ∃ b, idx2.built = some b ∧
      b.hashTableSplits = [0, min (max (pts.rows.length / 32) 1) 33554432] ∧
      b.hashTableCellSplits.length =
        min (max (pts.rows.length / 32) 1) 33554432 + 1 ∧
      (∀ i j, i ≤ j → j < b.hashTableCellSplits.length →
        b.hashTableCellSplits.getD i 0 ≤ b.hashTableCellSplits.getD j 0) ∧
      b.hashTableIndex.length = pts.rows.length := by
  rw [FixedRadiusIndex.SetTensorData] at h
  split at h
  · exact absurd h (by simp)
  split at h
  · exact absurd h (by simp)
  split at h
  · exact absurd h (by simp)
  split at h
  · exact absurd h (by simp)
  rw [Except.ok.injEq, Prod.mk.injEq] at h
  obtain ⟨h1, -⟩ := h
  subst h1
  set n := pts.rows.length with hn
  set tsize := min (max (n / 32) 1) 33554432 with htsize
  have htpos : 0 < tsize := by
    rw [htsize]
    have : 1 ≤ max (n / 32) 1 := Nat.le_max_right _ _
    omega
  refine ⟨_, rfl, rfl, ?_, ?_, ?_⟩
  · simp [buildSpatialHashTable]
  · intro i j hij hj
    have hlen : (buildSpatialHashTable
        (fun i => env.cellOf (pts.rows.getD i []) radius) n tsize).1.length =
        tsize + 1 := by
      simp [buildSpatialHashTable]
    rw [hlen] at hj
    have hi : i < tsize + 1 := by omega
    rw [splits_getD _ _ _ _ hi, splits_getD _ _ _ _ hj]
    exact filter_length_mono _ _ _ (by
      intro x hx
      simp only [decide_eq_true_eq] at hx ⊢
      omega)
  · rw [buildSpatialHashTable]
    simp only
    rw [bucket_concat_length]
    have hall : (List.range n).filter
        (fun i => env.cellOf (pts.rows.getD i []) radius % tsize < tsize) =
        List.range n := by
      rw [List.filter_eq_self]
      intro a _
      simpa using Nat.mod_lt _ htpos
    rw [hall, List.length_range]

/-- Decidable equality for `Except` results, used to evaluate the model at
concrete inputs. -/
instance {ε α : Type} [DecidableEq ε] [DecidableEq α] : DecidableEq (Except ε α) :=
  fun a b =>
    match a, b with
    | .ok x, .ok y => if h : x = y then .isTrue (by rw [h]) else .isFalse (by simp [h])
    | .error e, .error f => if h : e = f then .isTrue (by rw [h]) else .isFalse (by simp [h])
    | .ok _, .error _ => .isFalse (by simp)
    | .error _, .ok _ => .isFalse (by simp)

/-- Shared concrete NN-search environment and tensors for witnesses and
counterexamples. -/
def nnsEnvW : NnsEnv :=
  { buildCudaModule := true, cellOf := fun _ _ => 0,
    buildTempBytes := 16, radiusTempBytes := 32, sortTempBytes := 8 }

def ptsW : PTensor :=
  { shape := [1, 3], dtype := .float32, device := ⟨.CUDA, 0⟩,
    rows := [[0, 0, 0]] }

def builtW : BuiltIndex :=
  { datasetPoints := ptsW, pointsRowSplits := [0, 1],
    hashTableSplits := [0, 1], hashTableCellSplits := [0, 1],
    hashTableIndex := [0] }

def idxW : FixedRadiusIndex := { built := some builtW }

/-- Concrete instantiation of `setTensorData_hash_invariants` (witness):
building the index over one CUDA Float32 point with radius 1. -/
theorem setTensorData_hash_invariants_witness :
    ∃ b, idxW.built = some b ∧
      b.hashTableSplits = [0, min (max (ptsW.rows.length / 32) 1) 33554432] ∧
      b.hashTableCellSplits.length =
        min (max (ptsW.rows.length / 32) 1) 33554432 + 1 ∧
      (∀ i j, i ≤ j → j < b.hashTableCellSplits.length →
        b.hashTableCellSplits.getD i 0 ≤ b.hashTableCellSplits.getD j 0) ∧
      b.hashTableIndex.length = ptsW.rows.length :=
  setTensorData_hash_invariants nnsEnvW ⟨none⟩ ptsW 1 idxW
    [.probe .buildHash 16, .exec .buildHash 16] rfl

/-- Claim C4: precondition violations are fatal errors with no partial
results and no state change: `SetTensorData` fails on a non-CUDA dataset
tensor or a non-positive radius, and `SearchRadius`/`SearchHybrid` fail on
an unbuilt index, a non-positive radius, or any dtype/device/shape
mismatch between dataset and query tensors. -/
theorem frIndex_precondition_errors (env : NnsEnv) (idx : FixedRadiusIndex)
    (pts query : PTensor) (radius : ℚ) (sort : Bool) (maxKnn : Nat) :
    ((pts.device.kind ≠ .CUDA ∨ radius ≤ 0) →
      ∃ e, FixedRadiusIndex.SetTensorData env idx pts radius = .error e) ∧
    ((idx.built = none ∨ radius ≤ 0 ∨
        (∀ b, idx.built = some b →
          query.dtype ≠ b.datasetPoints.dtype ∨
          query.device ≠ b.datasetPoints.device ∨
          ¬ (query.shape.length = 2 ∧
            query.shape.getD 1 0 = b.datasetPoints.shape.getD 1 0))) →
      (∃ e, FixedRadiusIndex.SearchRadius env idx query radius sort = .error e) ∧
      (∃ e, FixedRadiusIndex.SearchHybrid env idx query radius maxKnn = .error e)) := by
  constructor
  · intro hpre
    rw [FixedRadiusIndex.SetTensorData]
    split_ifs with h1 h2 h3 h4
    · exact ⟨_, rfl⟩
    · exact ⟨_, rfl⟩
    · exact ⟨_, rfl⟩
    · exact ⟨_, rfl⟩
    · rcases hpre with h | h
      · exact absurd h h2
      · exact absurd h h3
  · intro hpre
    constructor
    · by_cases h1 : env.buildCudaModule = false
      · exact ⟨"FixedRadiusIndex::SearchRadius BUILD_CUDA_MODULE is OFF. Please compile Open3d with BUILD_CUDA_MODULE=ON.",
          by simp [FixedRadiusIndex.SearchRadius, h1]⟩
      · cases hb : idx.built with
        | none =>
          exact ⟨"[FixedRadiusIndex::SearchRadius] index has not been built.",
            by simp [FixedRadiusIndex.SearchRadius, h1, hb]⟩
        | some b =>
          by_cases g1 : query.dtype ≠ b.datasetPoints.dtype
          · exact ⟨"Tensor has dtype mismatch.",
              by simp [FixedRadiusIndex.SearchRadius, h1, hb, g1]⟩
          by_cases g2 : query.shape.length = 2 ∧
              query.shape.getD 1 0 = b.datasetPoints.shape.getD 1 0
          case neg =>
            refine ⟨"Tensor has shape mismatch.", ?_⟩
            simp only [FixedRadiusIndex.SearchRadius, h1, hb]
            simp [g1]
            intro hA hB
            exact absurd ⟨hA, by simpa using hB⟩ g2
          by_cases g3 : query.device ≠ b.datasetPoints.device
          · refine ⟨"Tensor has device mismatch.", ?_⟩
            simp [FixedRadiusIndex.SearchRadius, h1, hb, g1, g2, g3]
            try simpa [g2.1] using g2.2
          by_cases g4 : radius ≤ 0
          · refine ⟨"[FixedRadiusIndex::SearchRadius] radius should be positive.", ?_⟩
            simp [FixedRadiusIndex.SearchRadius, h1, hb, g1, g2, g3, g4]
            try simpa [g2.1] using g2.2
          · rcases hpre with hnone | hr | hmis
            · rw [hb] at hnone; exact absurd hnone (by simp)
            · exact absurd hr g4
            · rcases hmis b hb with hm | hm | hm
              · exact absurd hm g1
              · exact absurd hm g3
              · exact absurd g2 hm
    · by_cases h1 : env.buildCudaModule = false
      · exact ⟨"FixedRadiusIndex::SearchHybrid BUILD_CUDA_MODULE is OFF. Please compile Open3d with BUILD_CUDA_MODULE=ON.",
          by simp [FixedRadiusIndex.SearchHybrid, h1]⟩
      · cases hb : idx.built with
        | none =>
          exact ⟨"[FixedRadiusIndex::SearchHybrid] index has not been built.",
            by simp [FixedRadiusIndex.SearchHybrid, h1, hb]⟩
        | some b =>
          by_cases g1 : query.dtype ≠ b.datasetPoints.dtype
          · exact ⟨"Tensor has dtype mismatch.",
              by simp [FixedRadiusIndex.SearchHybrid, h1, hb, g1]⟩
          by_cases g2 : query.shape.length = 2 ∧
              query.shape.getD 1 0 = b.datasetPoints.shape.getD 1 0
          case neg =>
            refine ⟨"Tensor has shape mismatch.", ?_⟩
            simp only [FixedRadiusIndex.SearchHybrid, h1, hb]
            simp [g1]
            intro hA hB
            exact absurd ⟨hA, by simpa using hB⟩ g2
          by_cases g3 : query.device ≠ b.datasetPoints.device
          · refine ⟨"Tensor has device mismatch.", ?_⟩
            simp [FixedRadiusIndex.SearchHybrid, h1, hb, g1, g2, g3]
            try simpa [g2.1] using g2.2
          by_cases g4 : radius ≤ 0
          · refine ⟨"[FixedRadiusIndex::SearchRadius] radius should be positive.", ?_⟩
            simp [FixedRadiusIndex.SearchHybrid, h1, hb, g1, g2, g3, g4]
            try simpa [g2.1] using g2.2
          · rcases hpre with hnone | hr | hmis
            · rw [hb] at hnone; exact absurd hnone (by simp)
            · exact absurd hr g4
            · rcases hmis b hb with hm | hm | hm
              · exact absurd hm g1
              · exact absurd hm g3
              · exact absurd g2 hm

def ptsCPUW : PTensor :=
  { shape := [1, 3], dtype := .float32, device := ⟨.CPU, 0⟩,
    rows := [[0, 0, 0]] }

/-- Concrete instantiation of `frIndex_precondition_errors` (witness):
`SetTensorData` on a CPU tensor errors; `SearchRadius`/`SearchHybrid` on
an unbuilt index error. -/
theorem frIndex_precondition_errors_witness :
    (∃ e, FixedRadiusIndex.SetTensorData nnsEnvW ⟨none⟩ ptsCPUW 1 = .error e) ∧
    (∃ e, FixedRadiusIndex.SearchRadius nnsEnvW ⟨none⟩ ptsW 1 true = .error e) ∧
    (∃ e, FixedRadiusIndex.SearchHybrid nnsEnvW ⟨none⟩ ptsW 1 3 = .error e) := by
  obtain ⟨h1, h2⟩ :=
    frIndex_precondition_errors nnsEnvW ⟨none⟩ ptsCPUW ptsW 1 true 3
  obtain ⟨h2a, h2b⟩ := h2 (Or.inl rfl)
  exact ⟨h1 (Or.inl (by decide)), h2a, h2b⟩

/-- Claim C3 (amended): the hash-table build, radius search, and pair-sort
device operations follow the two-pass size-probe-then-execute scratch
protocol; hybrid search instead performs its work in one direct invocation
whose signature has no scratch arguments. -/
theorem devOps_scratch_protocol (env : NnsEnv) (idx : FixedRadiusIndex)
    (pts query : PTensor) (radius : ℚ) (sort : Bool) (maxKnn : Nat) :
    (∀ i2 t, FixedRadiusIndex.SetTensorData env idx pts radius = .ok (i2, t) →
      twoPassProtocol t = true) ∧
    (∀ r t, FixedRadiusIndex.SearchRadius env idx query radius sort = .ok (r, t) →
      twoPassProtocol t = true) ∧
    (∀ r t, FixedRadiusIndex.SearchHybrid env idx query radius maxKnn = .ok (r, t) →
      t = [DevCall.direct DevOp.hybridSearch]) := by
  refine ⟨?_, ?_, ?_⟩
  · intro i2 t h
    simp only [FixedRadiusIndex.SetTensorData] at h
    split_ifs at h <;>
      first
        | (injection h with h1; injection h1 with h2 h3; subst h3;
           simp [twoPassProtocol])
        | simp at h
  · intro r t h
    simp only [FixedRadiusIndex.SearchRadius] at h
    split at h
    · simp at h
    split at h
    · simp at h
    split_ifs at h <;>
      first
        | (injection h with h1; injection h1 with h2 h3; subst h3;
           simp [twoPassProtocol])
        | simp at h
  · intro r t h
    simp only [FixedRadiusIndex.SearchHybrid] at h
    split at h
    · simp at h
    split at h
    · simp at h
    split_ifs at h <;>
      first
        | (injection h with h1; injection h1 with h2 h3; exact h3.symm)
        | simp at h

/-- Concrete instantiation of `devOps_scratch_protocol` (witness): a
concrete build trace and a concrete sorted radius-search trace satisfy the
two-pass protocol. -/
theorem devOps_scratch_protocol_witness :
    twoPassProtocol [DevCall.probe .buildHash 16, DevCall.exec .buildHash 16] = true ∧
    twoPassProtocol [DevCall.probe .radiusSearch 32, DevCall.exec .radiusSearch 32,
      DevCall.probe .sortPairs 8, DevCall.exec .sortPairs 8] = true := by
  obtain ⟨hA, hB, -⟩ := devOps_scratch_protocol nnsEnvW idxW ptsW ptsW 1 true 2
  constructor
  · exact hA idxW [DevCall.probe .buildHash 16, DevCall.exec .buildHash 16] rfl
  · exact hB ([0], [0], [0, 1])
      [DevCall.probe .radiusSearch 32, DevCall.exec .radiusSearch 32,
        DevCall.probe .sortPairs 8, DevCall.exec .sortPairs 8] (by decide)

/-- Claim C3 (counterexample): at a concrete built index and query,
`SearchHybrid` succeeds with the single-invocation trace
`[direct hybridSearch]`, which does not satisfy the two-pass scratch
protocol — refuting the claim that hybrid search follows that protocol. -/
theorem searchHybrid_not_two_pass :
    (match FixedRadiusIndex.SearchHybrid nnsEnvW idxW ptsW 1 2 with
      | .ok (_, t) => twoPassProtocol t
      | .error _ => true) = false := by decide

/-- Claim C7: for a built index, `SearchHybrid` with m query points,
radius r > 0 and max_knn = k returns index and distance arrays of fixed
size m * k (the views of shape (m, k)), a neighbour-counts vector of
length m, and counts[i] equals the true number of in-radius dataset
points, capped at k — never more than k neighbor slots per query. -/
theorem searchHybrid_shapes_counts (env : NnsEnv) (idx : FixedRadiusIndex)
    (query : PTensor) (radius : ℚ) (maxKnn : Nat) (res : HybridResult)
    (trace : List DevCall)
    (h : FixedRadiusIndex.SearchHybrid env idx query radius maxKnn =
      .ok (res, trace)) :
    ∃ b, idx.built = some b ∧
      res.indices.length = query.rows.length * maxKnn ∧
      res.distances.length = query.rows.length * maxKnn ∧
      res.counts.length = query.rows.length ∧
      (∀ i, i < query.rows.length →
        res.counts.getD i 0 = min
          (inRadiusNeighbors b.datasetPoints.rows (query.rows.getD i []) radius).length
          maxKnn) := by
  simp only [FixedRadiusIndex.SearchHybrid] at h
  split at h
  · simp at h
  split at h
  · simp at h
  rename_i x b heq
  split_ifs at h
  injection h with h1
  injection h1 with h2 h3
  subst h2
  refine ⟨b, heq, ?_, ?_, ?_, ?_⟩
  · simp only [HybridResult.indices, List.length_flatMap, List.map_map]
    have hone : ∀ qi : Nat,
        ((List.map Int.ofNat
            ((inRadiusNeighbors b.datasetPoints.rows (query.rows.getD qi []) radius).take maxKnn) ++
          List.replicate (maxKnn -
            ((inRadiusNeighbors b.datasetPoints.rows (query.rows.getD qi []) radius).take maxKnn).length)
            (-1 : Int)).length) = maxKnn := by
      intro qi
      simp [List.length_take]
      try omega
    calc ((List.range query.rows.length).map _).sum
        = ((List.range query.rows.length).map (fun _ => maxKnn)).sum := by
          exact congrArg List.sum (List.map_congr_left (fun qi _ => hone qi))
      _ = query.rows.length * maxKnn := by
          rw [List.map_const', List.sum_replicate, List.length_range, smul_eq_mul]
  · simp only [HybridResult.distances, List.length_flatMap, List.map_map]
    have hone : ∀ qi : Nat,
        ((List.map (fun j => sqDist (query.rows.getD qi []) (b.datasetPoints.rows.getD j []))
            ((inRadiusNeighbors b.datasetPoints.rows (query.rows.getD qi []) radius).take maxKnn) ++
          List.replicate (maxKnn -
            ((inRadiusNeighbors b.datasetPoints.rows (query.rows.getD qi []) radius).take maxKnn).length)
            (0 : ℚ)).length) = maxKnn := by
      intro qi
      simp [List.length_take]
      try omega
    calc ((List.range query.rows.length).map _).sum
        = ((List.range query.rows.length).map (fun _ => maxKnn)).sum := by
          exact congrArg List.sum (List.map_congr_left (fun qi _ => hone qi))
      _ = query.rows.length * maxKnn := by
          rw [List.map_const', List.sum_replicate, List.length_range, smul_eq_mul]
  · simp [HybridResult.counts]
  · intro i hi
    simp only [HybridResult.counts]
    rw [List.getD_eq_getElem _ _ (by simpa using hi), List.getElem_map,
      List.getElem_range, List.length_take]
    exact Nat.min_comm _ _

/-- Concrete instantiation of `searchHybrid_shapes_counts` (witness): one
query point over the one-point index with k = 2 returns 1x2 padded rows
and count 1. -/
theorem searchHybrid_shapes_counts_witness :
    ∃ b, idxW.built = some b ∧
      (HybridResult.mk [0, -1] [0, 0] [1]).indices.length = ptsW.rows.length * 2 ∧
      (HybridResult.mk [0, -1] [0, 0] [1]).distances.length = ptsW.rows.length * 2 ∧
      (HybridResult.mk [0, -1] [0, 0] [1]).counts.length = ptsW.rows.length ∧
      (∀ i, i < ptsW.rows.length →
        (HybridResult.mk [0, -1] [0, 0] [1]).counts.getD i 0 = min
          (inRadiusNeighbors b.datasetPoints.rows (ptsW.rows.getD i []) 1).length 2) :=
  searchHybrid_shapes_counts nnsEnvW idxW ptsW 1 2 ⟨[0, -1], [0, 0], [1]⟩
    [DevCall.direct .hybridSearch] (by decide)

/-- Claim C10: the inherited overrides that `FixedRadiusIndex` does not
support — `SetTensorData` without a radius, `SearchKnn`, and
`SearchRadius` with a tensor of per-query radii — unconditionally fail
with their not-implemented fatal errors for every input. -/
theorem unimplemented_overrides_always_error (idx : FixedRadiusIndex)
    (pts query : PTensor) (knn : Int) (radii : List ℚ) (sort : Bool) :
    FixedRadiusIndex.SetTensorDataNoRadius idx pts =
      .error "FixedRadiusIndex::SetTensorData witout radius not implemented." ∧
    FixedRadiusIndex.SearchKnn idx query knn =
      .error "FixedRadiusIndex::SearchKnn not implemented." ∧
    FixedRadiusIndex.SearchRadiusMultiRadii idx query radii sort =
      .error "FixedRadiusIndex::SearchRadius with multi-radii not implemented." :=
  ⟨rfl, rfl, rfl⟩
